import Mathlib

/-
Verification of the job-queue and worker-pool orchestration engine of the
transcriber repository.

The definitions below are a shallow embedding of the Python source:
  - wrappers/queue_manager.py   (QueueStatus, QueueItem, QueueManager)
  - wrappers/media_manager.py   (check_for_duplicate_after_conversion, download_audio)
  - wrappers/db/db_manager.py   (TranscriptionDB, the result store)
  - server/api_server.py        (resolve_duplicate)
  - core.py                     (TranscriptionOrchestrator)

Modelling conventions:
  - the Python dict QueueManager.queue is an insertion-ordered association
    list (Python dicts preserve insertion order; keys are fresh uuid4 ids);
  - datetime timestamps are opaque Nat values passed in from outside;
  - external side effects (subprocess calls, sqlite persistence, file IO)
    are out of scope per the spec; only their queue-visible effects appear;
  - concurrency is modelled at the granularity of individual status writes:
    the pool bookkeeping treats a worker finishing as one atomic step that
    frees its pool handle and leaves the bookkeeping list, and the per-job
    step relation JobStep carries explicit in-flight commitments so that
    writes the code performs without re-reading the status (the duplicate
    gate, the worker's writes) can land on a status that changed after the
    decision that scheduled them.
-/

/-- QueueStatus enum from wrappers/queue_manager.py lines 6-16. -/
inductive QueueStatus
  | queued
  | downloading
  | converting
  | converted
  | transcribing
  | completed
  | failed
  | skipped
  | cancelled
  | pending_duplicate
deriving DecidableEq, Repr

/-- Payload stored on an item parked for duplicate resolution
(media_manager.py lines 27-31: a dict with keys filename, content, header). -/
structure PendingTranscription where
  filename : String
  content : Option String
  header : Option String
deriving DecidableEq, Repr

/-- QueueItem from wrappers/queue_manager.py lines 18-35. -/
structure QueueItem where
  id : String
  file_path : Option String
  url : Option String
  video_title : Option String
  status : QueueStatus
  created_at : Nat
  updated_at : Nat
  error_message : Option String
  pending_transcription : Option PendingTranscription
deriving DecidableEq, Repr

/-- QueueItem.__init__ (queue_manager.py lines 26-35): fresh items start QUEUED. -/
def mkQueueItem (id : String) (file_path url video_title : Option String)
    (now : Nat) : QueueItem :=
  { id := id, file_path := file_path, url := url, video_title := video_title,
    status := QueueStatus.queued, created_at := now, updated_at := now,
    error_message := none, pending_transcription := none }

/-- QueueItem.update_status (queue_manager.py lines 37-48): unconditionally sets
the status and the error message and refreshes updated_at; there is no
validation of the transition and no failure channel (the db save is external). -/
def QueueItem.update_status (item : QueueItem) (new_status : QueueStatus)
    (error_message : Option String) (now : Nat) : QueueItem :=
  { item with status := new_status, error_message := error_message, updated_at := now }

/-- QueueItem.mark_failed (queue_manager.py lines 50-52). -/
def QueueItem.mark_failed (item : QueueItem) (error : String) (now : Nat) : QueueItem :=
  item.update_status QueueStatus.failed (some error) now

/-- QueueManager state (queue_manager.py lines 57-63): the dict self.queue as an
insertion-ordered association list, plus self.processing_order. -/
structure QueueManager where
  queue : List (String × QueueItem)
  processing_order : List String
deriving DecidableEq, Repr

/-- Fresh manager (database empty on first start). -/
def QueueManager.empty : QueueManager :=
  { queue := [], processing_order := [] }

/-- Dict lookup self.queue.get(item_id) (queue_manager.py lines 187-188). -/
def QueueManager.get_item (qm : QueueManager) (item_id : String) : Option QueueItem :=
  (qm.queue.find? (fun p => p.1 == item_id)).map Prod.snd

/-- Dict value update self.queue[item_id] mutation: replaces the stored item. -/
def QueueManager.set_item (qm : QueueManager) (item_id : String) (item : QueueItem) :
    QueueManager :=
  { qm with queue := qm.queue.map (fun p => if p.1 == item_id then (p.1, item) else p) }

/-- QueueManager.add_item (queue_manager.py lines 159-166): always creates a new
item under a fresh uuid (passed in as item_id) and appends it; there is no
duplicate check of any kind. -/
def QueueManager.add_item (qm : QueueManager) (item_id : String)
    (file_path url video_title : Option String) (now : Nat) : QueueManager :=
  { queue := qm.queue ++ [(item_id, mkQueueItem item_id file_path url video_title now)],
    processing_order := qm.processing_order ++ [item_id] }

/-- QueueManager.update_item_path (queue_manager.py lines 168-175). -/
def QueueManager.update_item_path (qm : QueueManager) (item_id : String)
    (new_file_path : String) (now : Nat) : QueueManager :=
  match qm.get_item item_id with
  | some item => qm.set_item item_id { item with file_path := some new_file_path, updated_at := now }
  | none => qm

/-- Dict values view list(self.queue.values()) (queue_manager.py lines 190-191). -/
def QueueManager.get_all_items (qm : QueueManager) : List QueueItem :=
  qm.queue.map Prod.snd

/-- QueueManager.get_all_items_by_status (queue_manager.py lines 193-194). -/
def QueueManager.get_all_items_by_status (qm : QueueManager) (status : QueueStatus) :
    List QueueItem :=
  qm.get_all_items.filter (fun item => item.status == status)

/-- QueueManager.get_ready_items_for_transcription (queue_manager.py lines 196-199):
ready statuses are CONVERTED and SKIPPED only. -/
def QueueManager.get_ready_items_for_transcription (qm : QueueManager) : List QueueItem :=
  qm.get_all_items.filter
    (fun item => item.status == QueueStatus.converted || item.status == QueueStatus.skipped)

/-- Final states as used by _load_from_db (queue_manager.py line 98). -/
def finalStates : List QueueStatus :=
  [QueueStatus.completed, QueueStatus.failed, QueueStatus.cancelled]

/-- QueueManager.remove_item (queue_manager.py lines 205-222): deletes the entry
from the dict and drops the id from processing_order (file cleanup and the db
delete are external effects). Returns whether the id was present. -/
def QueueManager.remove_item (qm : QueueManager) (item_id : String) :
    QueueManager × Bool :=
  if qm.queue.any (fun p => p.1 == item_id) then
    ({ queue := qm.queue.eraseP (fun p => p.1 == item_id),
       processing_order := qm.processing_order.erase item_id }, true)
  else (qm, false)

/-- QueueManager.can_cancel_item (queue_manager.py lines 224-230). -/
def QueueManager.can_cancel_item (qm : QueueManager) (item_id : String) : Bool :=
  match qm.get_item item_id with
  | none => false
  | some item =>
      [QueueStatus.queued, QueueStatus.downloading, QueueStatus.converting,
       QueueStatus.transcribing].contains item.status

/-- QueueManager.can_remove_item (queue_manager.py lines 232-238). -/
def QueueManager.can_remove_item (qm : QueueManager) (item_id : String) : Bool :=
  match qm.get_item item_id with
  | none => false
  | some item =>
      [QueueStatus.completed, QueueStatus.failed, QueueStatus.cancelled,
       QueueStatus.skipped].contains item.status

/-- Outcome counts of remove_items (queue_manager.py lines 242-247). -/
structure RemoveResult where
  removed : Nat
  cancelled : Nat
  not_found : Nat
  cannot_remove : Nat
deriving DecidableEq, Repr

/-- QueueManager.remove_items (queue_manager.py lines 240-264): per id, cancel if
cancellable, delete if removable, else count cannot_remove; unknown ids count
not_found. The queue state threads through the loop. -/
def QueueManager.remove_items (qm : QueueManager) (item_ids : List String) (now : Nat) :
    QueueManager × RemoveResult :=
  item_ids.foldl
    (fun acc item_id =>
      let q := acc.1
      let r := acc.2
      match q.get_item item_id with
      | none => (q, { r with not_found := r.not_found + 1 })
      | some item =>
        if q.can_cancel_item item_id then
          (q.set_item item_id (item.update_status QueueStatus.cancelled (some "cancelled by user") now),
           { r with cancelled := r.cancelled + 1 })
        else if q.can_remove_item item_id then
          ((q.remove_item item_id).1, { r with removed := r.removed + 1 })
        else
          (q, { r with cannot_remove := r.cannot_remove + 1 }))
    (qm, ⟨0, 0, 0, 0⟩)

/-- One row of the transcriptions table (db_manager.py lines 21-29); ids come
from sqlite AUTOINCREMENT and are therefore always positive. -/
structure Transcription where
  id : Nat
  filename : String
  content : String
  queue_item_id : String
deriving DecidableEq, Repr

/-- The result store: the transcriptions table in row-insertion order
(AUTOINCREMENT, so insertion order is ascending id order). -/
abbrev TranscriptionStore := List Transcription

/-- TranscriptionDB.transcription_exists (db_manager.py lines 128-136). -/
def transcription_exists (store : TranscriptionStore) (filename : String) : Bool :=
  store.any (fun t => t.filename == filename)

/-- TranscriptionDB.delete_transcription (db_manager.py lines 102-111). -/
def delete_transcription (store : TranscriptionStore) (tid : Nat) : TranscriptionStore :=
  store.filter (fun t => t.id != tid)

/-- TranscriptionDB.add_transcription (db_manager.py lines 50-62); the fresh
AUTOINCREMENT id is passed in as new_id. -/
def add_transcription (store : TranscriptionStore) (filename content queue_item_id : String)
    (new_id : Nat) : TranscriptionStore :=
  store ++ [{ id := new_id, filename := filename, content := content,
              queue_item_id := queue_item_id }]

/-- Descending-id insertion used to model the ORDER BY id DESC default of
TranscriptionDB.get_all_transcriptions (db_manager.py lines 75-100). -/
def insertByIdDesc (t : Transcription) : TranscriptionStore → TranscriptionStore
  | [] => [t]
  | u :: rest => if u.id ≤ t.id then t :: u :: rest else u :: insertByIdDesc t rest

/-- TranscriptionDB.get_all_transcriptions with default arguments: all rows
sorted by id descending (db_manager.py lines 75-100). -/
def get_all_transcriptions (store : TranscriptionStore) : TranscriptionStore :=
  store.foldr insertByIdDesc []

/-- Python Path(p).stem for ordinary media file names: the part of the last
path component before its final extension (used at media_manager.py line 20). -/
def fileStem (p : String) : String :=
  let name := ((p.splitOn "/").reverse).headD p
  let parts := name.splitOn "."
  if parts.length ≤ 1 then name else String.intercalate "." parts.dropLast

/-- check_for_duplicate_after_conversion (media_manager.py lines 13-36): if the
prospective output name stem.txt already exists in the result store, park the
item in PENDING_DUPLICATE and attach the pending payload; otherwise leave the
item untouched. -/
def check_for_duplicate_after_conversion (qm : QueueManager) (store : TranscriptionStore)
    (item_id : String) (now : Nat) : QueueManager :=
  match qm.get_item item_id with
  | none => qm
  | some item =>
    match item.file_path with
    | none => qm
    | some fp =>
      let output_filename := fileStem fp ++ ".txt"
      if transcription_exists store output_filename then
        let item := item.update_status QueueStatus.pending_duplicate
          (some ("duplicate filename: " ++ output_filename)) now
        let payload := PendingTranscription.mk output_filename none none
        let item := { item with pending_transcription := some payload }
        qm.set_item item_id item
      else qm

/-- Queue effects of the early-return branch of download_audio (media_manager.py
lines 99-111): the output file already exists on disk, so the download is
skipped, but a fresh queue item is still created, given the existing path,
marked SKIPPED and gated on the duplicate check. The source locator yt_link is
stored in the file_path field (add_item is called with it positionally). -/
def download_audio_skip (qm : QueueManager) (store : TranscriptionStore)
    (item_id : String) (yt_link : String) (existing_file_path : String) (now : Nat) :
    QueueManager :=
  let qm := qm.add_item item_id (some yt_link) none none now
  let qm := qm.update_item_path item_id existing_file_path now
  let qm :=
    match qm.get_item item_id with
    | some item => qm.set_item item_id (item.update_status QueueStatus.skipped none now)
    | none => qm
  check_for_duplicate_after_conversion qm store item_id now

/-- Resolution actions accepted by the resolve-duplicate endpoint
(api_server.py lines 371-372); any other action string is rejected upstream. -/
inductive ResolveAction
  | overwrite
  | cancel
deriving DecidableEq, Repr

/-- Synchronous caller errors of resolve_duplicate (api_server.py lines 377-386). -/
inductive ResolveError
  | itemNotFound
  | notPendingDuplicate
  | noPendingPayload
deriving DecidableEq, Repr

/-- Python falsy test `not item.pending_transcription.get('content')`
(api_server.py line 409): missing key, None, or the empty string. -/
def contentMissing : Option String → Bool
  | none => true
  | some s => s.isEmpty

/-- resolve_duplicate (api_server.py lines 357-438). Checks run in source order:
unknown item, then not-pending-duplicate, then missing payload. Cancel moves
the item to CANCELLED and clears the payload. Overwrite deletes the stored
transcription whose filename matches the payload (the first match of
get_all_transcriptions, i.e. highest id first; the python truthiness test
`if existing_id` skips a hypothetical id 0); then, if the payload carries no
produced content, the item returns to CONVERTED, otherwise the content is
written to the result store and the item moves to COMPLETED. The temp-file
write is an external effect. -/
def resolve_duplicate (qm : QueueManager) (store : TranscriptionStore) (item_id : String)
    (action : ResolveAction) (new_id : Nat) (now : Nat) :
    Except ResolveError (QueueManager × TranscriptionStore) :=
  match qm.get_item item_id with
  | none => Except.error ResolveError.itemNotFound
  | some item =>
    if item.status ≠ QueueStatus.pending_duplicate then
      Except.error ResolveError.notPendingDuplicate
    else
      match item.pending_transcription with
      | none => Except.error ResolveError.noPendingPayload
      | some pending =>
        match action with
        | ResolveAction.cancel =>
          let item := item.update_status QueueStatus.cancelled
            (some "duplicate cancelled by user") now
          let item := { item with pending_transcription := none }
          Except.ok (qm.set_item item_id item, store)
        | ResolveAction.overwrite =>
          let filename := pending.filename
          let existing_id :=
            ((get_all_transcriptions store).find? (fun t => t.filename == filename)).map
              Transcription.id
          let store :=
            match existing_id with
            | some tid => if tid ≠ 0 then delete_transcription store tid else store
            | none => store
          if contentMissing pending.content then
            let item := item.update_status QueueStatus.converted none now
            let item := { item with pending_transcription := none }
            Except.ok (qm.set_item item_id item, store)
          else
            let content := pending.content.getD ""
            let store := add_transcription store filename content item.id new_id
            let item := item.update_status QueueStatus.completed none now
            let item := { item with pending_transcription := none }
            Except.ok (qm.set_item item_id item, store)

/-- One entry of TranscriptionOrchestrator.model_pool (core.py line 106): the
dict with keys model and busy; the WhisperModel object is opaque, so only the
busy flag is modelled. -/
structure PoolEntry where
  busy : Bool
deriving DecidableEq, Repr

/-- One running worker thread (core.py lines 118-127): the thread is bound to
the item being transcribed and the pool index of the model it holds. -/
structure WorkerTask where
  item_id : String
  model_idx : Nat
deriving DecidableEq, Repr

/-- TranscriptionOrchestrator state (core.py lines 14-21): max_workers, the
model pool, and the bookkeeping list of running worker threads. -/
structure OrchState where
  max_workers : Nat
  model_pool : List PoolEntry
  worker_threads : List WorkerTask
deriving DecidableEq, Repr

/-- First free pool index: the enumerate-and-break scan of core.py lines 99-103. -/
def findFreeModelIdx : List PoolEntry → Option Nat
  | [] => none
  | entry :: rest =>
    if !entry.busy then some 0 else (findFreeModelIdx rest).map (· + 1)

/-- The inner while loop of run_orchestration (core.py lines 94-128): while
slots remain and ready items remain, pop the next ready item, take the first
free model or lazily create one while the pool is below max_workers (else
break), mark it busy, and spawn a worker thread bound to the item and index. -/
def fillSlotsLoop (max_workers : Nat) :
    Nat → List QueueItem → List PoolEntry → List WorkerTask →
    List PoolEntry × List WorkerTask
  | 0, _, pool, threads => (pool, threads)
  | _ + 1, [], pool, threads => (pool, threads)
  | slots + 1, item :: ready, pool, threads =>
    match findFreeModelIdx pool with
    | none =>
      if pool.length < max_workers then
        fillSlotsLoop max_workers slots ready (pool ++ [PoolEntry.mk true])
          (threads ++ [WorkerTask.mk item.id pool.length])
      else
        (pool, threads)
    | some free_idx =>
      fillSlotsLoop max_workers slots ready (pool.set free_idx (PoolEntry.mk true))
        (threads ++ [WorkerTask.mk item.id free_idx])

/-- Statuses counting as active for idle maintenance (core.py lines 76-81):
CONVERTED, SKIPPED and PENDING_DUPLICATE are deliberately absent. -/
def activeStatuses : List QueueStatus :=
  [QueueStatus.queued, QueueStatus.downloading, QueueStatus.converting,
   QueueStatus.transcribing]

/-- Ready-item selection of the dispatch loop (core.py lines 90-92): all
CONVERTED items followed by all SKIPPED items. -/
def orchReadyItems (qm : QueueManager) : List QueueItem :=
  qm.get_all_items_by_status QueueStatus.converted ++
    qm.get_all_items_by_status QueueStatus.skipped

/-- Number of busy handles in the pool. -/
def busyCount (pool : List PoolEntry) : Nat :=
  pool.countP (fun entry => entry.busy)

/-- One iteration of the dispatch loop (core.py lines 83-136), with finished
threads already pruned (pruning is the workerFinish step below): fill free
slots from the ready items, then run idle maintenance, which tears the whole
pool down when no active status is populated and no worker thread runs
(cleanup, core.py lines 138-147, empties model_pool). -/
def dispatchCycle (o : OrchState) (qm : QueueManager) : OrchState :=
  let available_slots := o.max_workers - o.worker_threads.length
  let filled :=
    if available_slots > 0 then
      fillSlotsLoop o.max_workers available_slots (orchReadyItems qm)
        o.model_pool o.worker_threads
    else (o.model_pool, o.worker_threads)
  let any_active :=
    (activeStatuses.any (fun s => !(qm.get_all_items_by_status s).isEmpty)) ||
      !filled.2.isEmpty
  if !any_active && !filled.1.isEmpty then
    { o with model_pool := [], worker_threads := filled.2 }
  else
    { o with model_pool := filled.1, worker_threads := filled.2 }

/-- A worker thread finishing (core.py lines 118-123 and the prune at line 85):
the finally block frees the busy flag of its model index and the thread leaves
the bookkeeping list at the next prune; modelled as one atomic step. -/
def workerFinish (o : OrchState) (w : WorkerTask) : OrchState :=
  { o with model_pool := o.model_pool.set w.model_idx (PoolEntry.mk false),
           worker_threads := o.worker_threads.erase w }

/-- Pool bookkeeping invariant of the orchestrator: distinct running workers
hold distinct pool indices, every running worker holds a busy handle, the busy
handles are exactly counted by the running workers, and the pool never exceeds
max_workers. -/
def PoolInv (o : OrchState) : Prop :=
  (o.worker_threads.map WorkerTask.model_idx).Nodup ∧
  (∀ w ∈ o.worker_threads, o.model_pool[w.model_idx]? = some (PoolEntry.mk true)) ∧
  busyCount o.model_pool = o.worker_threads.length ∧
  o.model_pool.length ≤ o.max_workers

/-- One row of the queue_items table (db_manager.py lines 31-42) as handed to
_load_from_db; status is the persisted TEXT value, timestamps are opaque, and
pending_transcription is the parsed literal (parse failures become none,
queue_manager.py lines 90-95). -/
structure QueueItemRecord where
  id : String
  file_path : Option String
  url : Option String
  video_title : Option String
  status : String
  created_at : Nat
  updated_at : Nat
  error_message : Option String
  pending_transcription : Option PendingTranscription
deriving DecidableEq, Repr

/-- Enum value lookup QueueStatus(value) (queue_manager.py line 85). -/
def QueueStatus.ofValue : String → Option QueueStatus
  | "queued" => some QueueStatus.queued
  | "downloading" => some QueueStatus.downloading
  | "converting" => some QueueStatus.converting
  | "converted" => some QueueStatus.converted
  | "transcribing" => some QueueStatus.transcribing
  | "completed" => some QueueStatus.completed
  | "failed" => some QueueStatus.failed
  | "skipped" => some QueueStatus.skipped
  | "cancelled" => some QueueStatus.cancelled
  | "pending_duplicate" => some QueueStatus.pending_duplicate
  | _ => none

/-- Item reconstructed verbatim from a persisted record (queue_manager.py
lines 81-95); an unknown status value falls back to QUEUED only for totality
and never occurs on records written by the store. -/
def recordToItem (rec : QueueItemRecord) : QueueItem :=
  { id := rec.id, file_path := rec.file_path, url := rec.url,
    video_title := rec.video_title,
    status := (QueueStatus.ofValue rec.status).getD QueueStatus.queued,
    created_at := rec.created_at, updated_at := rec.updated_at,
    error_message := rec.error_message,
    pending_transcription := rec.pending_transcription }

/-- The record loop of _load_from_db (queue_manager.py lines 79-100): each
record is restored verbatim into the queue dict, and ids of items outside the
final states rejoin processing_order. A record whose status value is not a
QueueStatus raises ValueError, which the surrounding try swallows, aborting
the rest of the load. No filesystem check of file_path happens anywhere. -/
def load_from_db : QueueManager → List QueueItemRecord → QueueManager
  | qm, [] => qm
  | qm, rec :: rest =>
    match QueueStatus.ofValue rec.status with
    | none => qm
    | some st =>
      let item := recordToItem rec
      let qm' : QueueManager := { qm with queue := qm.queue ++ [(rec.id, item)] }
      let qm' :=
        if finalStates.contains st then qm'
        else { qm' with processing_order := qm'.processing_order ++ [rec.id] }
      load_from_db qm' rest

/-- _cleanup_orphaned_temp_files (queue_manager.py lines 114-144): removes
every file found in the TEMP_DIR directory, unconditionally. -/
def cleanup_orphaned_temp_files (_temp_files : List String) : List String :=
  []

/-- Startup sequence of QueueManager.__init__ and _load_from_db
(queue_manager.py lines 57-112): start from the empty in-memory queue, restore
the persisted records, then wipe the temp directory; returns the rebuilt
manager and the surviving temp-directory contents. -/
def startup_load (records : List QueueItemRecord) (temp_files : List String) :
    QueueManager × List String :=
  (load_from_db QueueManager.empty records, cleanup_orphaned_temp_files temp_files)

/-- Statuses from which the user-cancel path applies (queue_manager.py line 229,
used at queue_manager.py line 256 and api_server.py lines 170-171). -/
def activeCancelStates : List QueueStatus :=
  [QueueStatus.queued, QueueStatus.downloading, QueueStatus.converting,
   QueueStatus.transcribing]

/-- Per-job view of the interleaved system: the job's current status plus the
work other threads have already committed to but not yet written.
workerPending records that the dispatch loop popped the job from a ready
snapshot and spawned a worker whose first status write has not yet executed:
the snapshot at core.py lines 90-92, the model acquisition at lines 97-115
(lazily loading a Whisper model, possibly seconds), and the thread start at
line 125 all happen before the TRANSCRIBING write inside transcribe_file at
line 37. workerRunning records that the TRANSCRIBING write happened and the
final COMPLETED or FAILED write has not. gatePending records that conversion
(or the skip path) finished with an output name that collides in the result
store and the duplicate-gate write at media_manager.py line 26 has not yet
executed: the gate is called at media_manager.py lines 165/225 only after the
CONVERTED write at 162/222 (and at 107/195 after the SKIPPED write), with a
get_item and a sqlite existence query in between. None of this shared state
is protected by a lock. -/
structure JobState where
  status : QueueStatus
  workerPending : Bool
  workerRunning : Bool
  gatePending : Bool
deriving DecidableEq, Repr

/-- One atomic status write or scheduling commitment of the system, one
constructor per call site. The guards are exactly what the code checks at
that point: dispatch selection reads the current status (core.py lines
90-92), and cancel and resolve check the current status before writing
(queue_manager.py line 229, api_server.py line 381); but the duplicate-gate
write (media_manager.py line 26), the worker's TRANSCRIBING write (core.py
line 37) and the worker's final writes (core.py lines 66 and 71) are
unconditional, so they may land on a status that changed after the decision
that scheduled them. -/
inductive JobStep : JobState → JobState → Prop
  /-- media_manager.py line 114: a fresh item starts downloading (the same
  thread created it just before, so nothing is in flight). -/
  | download_begin :
      JobStep ⟨QueueStatus.queued, false, false, false⟩
        ⟨QueueStatus.downloading, false, false, false⟩
  /-- media_manager.py lines 104 and 192: the output file already exists; the
  skip path then invokes the duplicate gate, so a colliding name leaves the
  gate write pending. -/
  | skip_existing (collides : Bool) :
      JobStep ⟨QueueStatus.queued, false, false, false⟩
        ⟨QueueStatus.skipped, false, false, collides⟩
  /-- media_manager.py line 145: downloaded file enters conversion. -/
  | convert_after_download :
      JobStep ⟨QueueStatus.downloading, false, false, false⟩
        ⟨QueueStatus.converting, false, false, false⟩
  /-- media_manager.py line 202: an uploaded file enters conversion directly. -/
  | convert_upload :
      JobStep ⟨QueueStatus.queued, false, false, false⟩
        ⟨QueueStatus.converting, false, false, false⟩
  /-- media_manager.py lines 162 and 222: conversion succeeded; the converter
  thread then invokes the duplicate gate, so a colliding name leaves the gate
  write pending. -/
  | convert_done (collides : Bool) :
      JobStep ⟨QueueStatus.converting, false, false, false⟩
        ⟨QueueStatus.converted, false, false, collides⟩
  /-- media_manager.py lines 127 and 135: download failed. -/
  | download_fail :
      JobStep ⟨QueueStatus.downloading, false, false, false⟩
        ⟨QueueStatus.failed, false, false, false⟩
  /-- media_manager.py lines 167 and 227: conversion failed. -/
  | convert_fail :
      JobStep ⟨QueueStatus.converting, false, false, false⟩
        ⟨QueueStatus.failed, false, false, false⟩
  /-- media_manager.py line 26: the pending duplicate-gate write executes. It
  writes PENDING_DUPLICATE over whatever the status is at that moment; the
  code never re-reads the status before this write. -/
  | gate_fire (s : QueueStatus) (w r : Bool) :
      JobStep ⟨s, w, r, true⟩ ⟨QueueStatus.pending_duplicate, w, r, false⟩
  /-- core.py lines 90-95 and 117-127: the dispatch loop snapshots the job
  while its status reads CONVERTED or SKIPPED and spawns a worker bound to it;
  from here the TRANSCRIBING write is committed. -/
  | dispatch_claim (s : QueueStatus)
      (h : s = QueueStatus.converted ∨ s = QueueStatus.skipped) (r g : Bool) :
      JobStep ⟨s, false, r, g⟩ ⟨s, true, r, g⟩
  /-- core.py line 37: the spawned worker performs its first action,
  update_status(TRANSCRIBING), without re-checking the status the snapshot
  saw; it overwrites whatever status the job has now. -/
  | worker_begin (s : QueueStatus) (r g : Bool) :
      JobStep ⟨s, true, r, g⟩ ⟨QueueStatus.transcribing, false, true, g⟩
  /-- core.py line 66: transcription saved; the write is unconditional. -/
  | worker_done (s : QueueStatus) (w g : Bool) :
      JobStep ⟨s, w, true, g⟩ ⟨QueueStatus.completed, w, false, g⟩
  /-- core.py line 71: transcription raised; the write is unconditional. -/
  | worker_fail (s : QueueStatus) (w g : Bool) :
      JobStep ⟨s, w, true, g⟩ ⟨QueueStatus.failed, w, false, g⟩
  /-- queue_manager.py line 256 and api_server.py line 171, guarded by
  can_cancel_item on the current status. -/
  | cancel_user (s : QueueStatus) (h : s ∈ activeCancelStates) (w r g : Bool) :
      JobStep ⟨s, w, r, g⟩ ⟨QueueStatus.cancelled, w, r, g⟩
  /-- api_server.py line 389: duplicate resolved as cancel; the endpoint
  checks the current status at line 381 before writing. -/
  | resolve_cancel (w r g : Bool) :
      JobStep ⟨QueueStatus.pending_duplicate, w, r, g⟩
        ⟨QueueStatus.cancelled, w, r, g⟩
  /-- api_server.py line 410: overwrite with no cached content requeues. -/
  | resolve_overwrite_requeue (w r g : Bool) :
      JobStep ⟨QueueStatus.pending_duplicate, w, r, g⟩
        ⟨QueueStatus.converted, w, r, g⟩
  /-- api_server.py line 429: overwrite with cached content completes. -/
  | resolve_overwrite_complete (w r g : Bool) :
      JobStep ⟨QueueStatus.pending_duplicate, w, r, g⟩
        ⟨QueueStatus.completed, w, r, g⟩

/-- Non-terminal statuses in the sense of the spec state machine (section 3). -/
def nonTerminalSpec (s : QueueStatus) : Bool :=
  !(finalStates.contains s)

/-- Transition edges of the spec section 3 state machine, written from the
spec text for comparison with update_status: the main chain, the duplicate
gate with its two resolution exits, and the Failed and Cancelled side branches
from any non-terminal state. -/
def specAllowsTransition (a b : QueueStatus) : Bool :=
  match a, b with
  | QueueStatus.queued, QueueStatus.downloading => true
  | QueueStatus.queued, QueueStatus.converting => true
  | QueueStatus.queued, QueueStatus.skipped => true
  | QueueStatus.downloading, QueueStatus.converting => true
  | QueueStatus.converting, QueueStatus.converted => true
  | QueueStatus.converting, QueueStatus.skipped => true
  | QueueStatus.converted, QueueStatus.pending_duplicate => true
  | QueueStatus.skipped, QueueStatus.pending_duplicate => true
  | QueueStatus.converted, QueueStatus.transcribing => true
  | QueueStatus.skipped, QueueStatus.transcribing => true
  | QueueStatus.transcribing, QueueStatus.completed => true
  | QueueStatus.pending_duplicate, QueueStatus.converted => true
  | QueueStatus.pending_duplicate, QueueStatus.completed => true
  | a, QueueStatus.failed => nonTerminalSpec a
  | a, QueueStatus.cancelled => nonTerminalSpec a
  | _, _ => false

/-- Jobs counted by the dedup invariant of the spec: items recorded for the
given source locator whose status is not final (the source locator of both
download_audio and convert_to_audio is stored in file_path). -/
def QueueManager.nonTerminalJobsForSource (qm : QueueManager) (s : String) :
    List QueueItem :=
  qm.get_all_items.filter
    (fun item => item.file_path == some s && !(finalStates.contains item.status))

theorem find?_eq_of_filter_singleton {α : Type} (p : α → Bool) {l : List α} {a : α}
    (h : l.filter p = [a]) : l.find? p = some a := by
  induction l with
  | nil => simp at h
  | cons x xs ih =>
    by_cases hp : p x
    · simp [List.filter_cons, hp] at h
      obtain ⟨rfl, -⟩ := h
      simp [List.find?_cons, hp]
    · simp [List.filter_cons, hp] at h
      simp [List.find?_cons, hp, ih h]

theorem find?_key_update_ne (l : List (String × QueueItem)) (i j : String)
    (x : QueueItem) (hne : j ≠ i) :
    (l.map (fun p => if p.1 == i then (p.1, x) else p)).find? (fun p => p.1 == j) =
      l.find? (fun p => p.1 == j) := by
  induction l with
  | nil => rfl
  | cons p rest ih =>
    simp only [List.map_cons, List.find?]
    by_cases hpi : (p.1 == i) = true
    · have hp1 : p.1 = i := by simpa using hpi
      have hpj : (p.1 == j) = false := by
        rw [beq_eq_false_iff_ne, hp1]
        exact Ne.symm hne
      rw [if_pos hpi]
      simp only [show ((p.1, x).1 == j) = false from hpj, hpj]
      exact ih
    · rw [if_neg hpi]
      cases hpj : (p.1 == j) with
      | true => simp only [hpj]
      | false => simp only [hpj]; exact ih

theorem find?_key_update_self (l : List (String × QueueItem)) (i : String)
    (x : QueueItem) (h : (l.find? (fun p => p.1 == i)).isSome = true) :
    ((l.map (fun p => if p.1 == i then (p.1, x) else p)).find?
        (fun p => p.1 == i)).map Prod.snd = some x := by
  induction l with
  | nil => simp [List.find?] at h
  | cons p rest ih =>
    simp only [List.map_cons, List.find?]
    by_cases hpi : (p.1 == i) = true
    · rw [if_pos hpi]
      simp only [show ((p.1, x).1 == i) = true from hpi]
      rfl
    · rw [if_neg hpi]
      have hpi' : (p.1 == i) = false := by simpa using hpi
      simp only [hpi']
      apply ih
      simp only [List.find?, hpi'] at h
      exact h

theorem QueueManager.get_item_set_ne (qm : QueueManager) (i j : String) (x : QueueItem)
    (hne : j ≠ i) : (qm.set_item i x).get_item j = qm.get_item j := by
  unfold QueueManager.get_item QueueManager.set_item
  rw [find?_key_update_ne qm.queue i j x hne]

theorem QueueManager.get_item_set_self (qm : QueueManager) (i : String) (x it : QueueItem)
    (h : qm.get_item i = some it) : (qm.set_item i x).get_item i = some x := by
  unfold QueueManager.get_item QueueManager.set_item
  apply find?_key_update_self
  unfold QueueManager.get_item at h
  rcases hf : qm.queue.find? (fun p => p.1 == i) with _ | q
  · rw [hf] at h; simp at h
  · simp [hf]

theorem fillSlotsLoop_nil (mw : Nat) (pool : List PoolEntry) (threads : List WorkerTask) :
    ∀ slots, fillSlotsLoop mw slots [] pool threads = (pool, threads) := by
  intro slots
  cases slots <;> rfl

theorem insertByIdDesc_perm (t : Transcription) (l : TranscriptionStore) :
    List.Perm (insertByIdDesc t l) (t :: l) := by
  induction l with
  | nil => exact List.Perm.refl _
  | cons u rest ih =>
    by_cases h : u.id ≤ t.id
    · simp [insertByIdDesc, h]
    · simp only [insertByIdDesc, h, if_neg, ite_false]
      exact List.Perm.trans (List.Perm.cons u ih) (List.Perm.swap t u rest)

theorem get_all_transcriptions_perm (store : TranscriptionStore) :
    List.Perm (get_all_transcriptions store) store := by
  induction store with
  | nil => exact List.Perm.refl _
  | cons t rest ih =>
    have : get_all_transcriptions (t :: rest) =
        insertByIdDesc t (get_all_transcriptions rest) := rfl
    rw [this]
    exact List.Perm.trans (insertByIdDesc_perm t _) (List.Perm.cons t ih)

theorem busyCount_append (pool pool' : List PoolEntry) :
    busyCount (pool ++ pool') = busyCount pool + busyCount pool' := by
  simp [busyCount, List.countP_append]

theorem busyCount_set_true {pool : List PoolEntry} {i : Nat}
    (h : pool[i]? = some (PoolEntry.mk false)) :
    busyCount (pool.set i (PoolEntry.mk true)) = busyCount pool + 1 := by
  induction pool generalizing i with
  | nil => simp at h
  | cons e rest ih =>
    cases i with
    | zero =>
      simp at h
      simp [busyCount, List.countP_cons, h]
    | succ n =>
      simp at h
      simp only [List.set_cons_succ, busyCount, List.countP_cons]
      have := ih h
      simp only [busyCount] at this
      omega

theorem busyCount_set_false {pool : List PoolEntry} {i : Nat}
    (h : pool[i]? = some (PoolEntry.mk true)) :
    busyCount (pool.set i (PoolEntry.mk false)) + 1 = busyCount pool := by
  induction pool generalizing i with
  | nil => simp at h
  | cons e rest ih =>
    cases i with
    | zero =>
      simp at h
      simp [busyCount, List.countP_cons, h]
    | succ n =>
      simp at h
      simp only [List.set_cons_succ, busyCount, List.countP_cons]
      have := ih h
      simp only [busyCount] at this
      omega

theorem findFreeModelIdx_spec : ∀ (pool : List PoolEntry) (i : Nat),
    findFreeModelIdx pool = some i → pool[i]? = some (PoolEntry.mk false) := by
  intro pool
  induction pool with
  | nil => intro i h; simp [findFreeModelIdx] at h
  | cons e rest ih =>
    intro i h
    by_cases hb : e.busy
    · simp [findFreeModelIdx, hb] at h
      rcases h with ⟨j, hj, rfl⟩
      simpa using ih j hj
    · simp [findFreeModelIdx, hb] at h
      cases e with
      | mk b =>
        simp at hb
        simp [← h, hb]

theorem load_from_db_spec (records : List QueueItemRecord) :
    ∀ qm : QueueManager,
      (∀ rec ∈ records, (QueueStatus.ofValue rec.status).isSome = true) →
      (load_from_db qm records).get_all_items =
          qm.get_all_items ++ records.map recordToItem ∧
      (load_from_db qm records).processing_order = qm.processing_order ++
        (records.filter
          (fun rec => !(finalStates.contains (recordToItem rec).status))).map
            QueueItemRecord.id := by
  induction records with
  | nil => intro qm _; simp [load_from_db]
  | cons rec rest ih =>
    intro qm hvalid
    obtain ⟨st, hst⟩ := Option.isSome_iff_exists.mp (hvalid rec (by simp))
    have hrt : (recordToItem rec).status = st := by simp [recordToItem, hst]
    have hrest : ∀ r ∈ rest, (QueueStatus.ofValue r.status).isSome = true :=
      fun r hr => hvalid r (by simp [hr])
    by_cases hfin : finalStates.contains st = true
    · have hmem : st ∈ finalStates := by simpa using hfin
      have := ih { qm with queue := qm.queue ++ [(rec.id, recordToItem rec)] } hrest
      simp only [load_from_db, hst, hfin, if_pos]
      refine ⟨?_, ?_⟩
      · rw [this.1]
        simp [QueueManager.get_all_items]
      · rw [this.2]
        simp [List.filter_cons, hrt, hmem]
    · have hnmem : st ∉ finalStates := by simpa using hfin
      have := ih
        { queue := qm.queue ++ [(rec.id, recordToItem rec)],
          processing_order := qm.processing_order ++ [rec.id] } hrest
      have hfin' : finalStates.contains st = false := by simpa using hfin
      simp only [load_from_db, hst, hfin', Bool.false_eq_true, if_neg,
        not_false_eq_true]
      refine ⟨?_, ?_⟩
      · rw [this.1]
        simp [QueueManager.get_all_items]
      · rw [this.2]
        simp [List.filter_cons, hrt, hnmem]

/-- Persisted record of a mid-conversion job whose media file may or may not
still exist, used against claim C7. -/
def recC7 : QueueItemRecord :=
  { id := "r1", file_path := some "/tmp-dir/a.ogg", url := none, video_title := none,
    status := "converting", created_at := 0, updated_at := 0,
    error_message := none, pending_transcription := none }

/-- C7 counterexample: reloading a persisted non-terminal job performs no
filesystem revalidation. The job comes back still CONVERTING (not requeued to
any prior stage) whether or not its file exists, its localPath stays set, and
the startup cleanup then deletes every temp-directory file, so the reloaded
non-terminal job references a file that no longer exists. -/
theorem C7_reload_counterexample :
    ((startup_load [recC7] ["/tmp-dir/a.ogg"]).1.get_item "r1").map QueueItem.status =
        some QueueStatus.converting ∧
    ((startup_load [recC7] []).1.get_item "r1").map QueueItem.status =
        some QueueStatus.converting ∧
    ((startup_load [recC7] ["/tmp-dir/a.ogg"]).1.get_item "r1").bind QueueItem.file_path =
        some "/tmp-dir/a.ogg" ∧
    (startup_load [recC7] ["/tmp-dir/a.ogg"]).2 = [] ∧
    finalStates.contains QueueStatus.converting = false ∧
    (startup_load [recC7] ["/tmp-dir/a.ogg"]).1.processing_order = ["r1"] := by
  decide

/-- C7 (corrected): on startup reload every persisted record is restored
verbatim, with its stored status unchanged and no filesystem revalidation or
requeue of any kind; non-terminal jobs simply rejoin the processing order, and
the startup cleanup unconditionally deletes every file in the temp directory,
so a reloaded non-terminal job may reference a missing file. -/
theorem C7_reload_verbatim (records : List QueueItemRecord) (temp_files : List String)
    (hvalid : ∀ rec ∈ records, (QueueStatus.ofValue rec.status).isSome = true) :
    (startup_load records temp_files).1.get_all_items = records.map recordToItem ∧
    (startup_load records temp_files).1.processing_order =
      (records.filter
        (fun rec => !(finalStates.contains (recordToItem rec).status))).map
          QueueItemRecord.id ∧
    (startup_load records temp_files).2 = [] := by
  obtain ⟨h1, h2⟩ := load_from_db_spec records QueueManager.empty hvalid
  refine ⟨?_, ?_, rfl⟩
  · simpa [startup_load, QueueManager.empty, QueueManager.get_all_items] using h1
  · simpa [startup_load, QueueManager.empty] using h2

/-- C7 witness: the corrected reload theorem evaluated on one concrete
mid-conversion record with one temp file on disk. -/
theorem C7_reload_verbatim_witness :
    (startup_load [recC7] ["/tmp-dir/b.ogg"]).1.get_all_items = [recC7].map recordToItem ∧
    (startup_load [recC7] ["/tmp-dir/b.ogg"]).1.processing_order =
      ([recC7].filter
        (fun rec => !(finalStates.contains (recordToItem rec).status))).map
          QueueItemRecord.id ∧
    (startup_load [recC7] ["/tmp-dir/b.ogg"]).2 = [] :=
  C7_reload_verbatim [recC7] ["/tmp-dir/b.ogg"] (by decide)

/-- C1 counterexample: enqueuing the same source locator twice while the first
Job is still non-terminal creates a second Job. add_item performs no dedup, so
after two enqueues of the same source two non-terminal Jobs for it coexist;
even the skip-download branch of download_audio, taken when the output file
already exists, creates one more queue entry instead of returning the
existing Job. -/
theorem C1_dedup_counterexample :
    (((QueueManager.empty.add_item "id-a" (some "https://vid") none none
        0).nonTerminalJobsForSource "https://vid").length = 1) ∧
    ((((QueueManager.empty.add_item "id-a" (some "https://vid") none none 0).add_item
        "id-b" (some "https://vid") none none 1).nonTerminalJobsForSource
          "https://vid").length = 2) ∧
    ((download_audio_skip
        (QueueManager.empty.add_item "id-a" (some "https://vid") none none 0) []
        "id-b" "https://vid" "/tmp-dir/vid.ogg" 1).queue.length = 2) := by
  decide

/-- C1 (corrected): enqueuing is never an idempotent no-op. Every call to
add_item appends one fresh Job in state QUEUED, so enqueuing a source that
already has a non-terminal Job raises the number of its non-terminal Jobs by
one instead of returning the existing Job. Dedup in this system is only the
skip of the download or conversion work when the output file already exists,
and that path also creates a new Job. -/
theorem C1_enqueue_always_appends (qm : QueueManager) (item_id s : String)
    (url title : Option String) (now : Nat) :
    ((qm.add_item item_id (some s) url title now).nonTerminalJobsForSource s).length =
        (qm.nonTerminalJobsForSource s).length + 1 ∧
    (qm.add_item item_id (some s) url title now).queue.length = qm.queue.length + 1 := by
  constructor
  · simp [QueueManager.add_item, QueueManager.nonTerminalJobsForSource,
      QueueManager.get_all_items, mkQueueItem, List.filter_append, finalStates]
  · simp [QueueManager.add_item]

/-- C4 counterexample: update_status applies a transition that the spec state
machine forbids. Moving a COMPLETED (terminal) Job back to QUEUED is not an
edge of the section 3 state machine, yet update_status performs it, changes
the stored state, and signals no error; no InvalidTransition failure exists in
the code. -/
theorem C4_illegal_transition_counterexample :
    specAllowsTransition QueueStatus.completed QueueStatus.queued = false ∧
    (((mkQueueItem "item-1" none none none 0).update_status QueueStatus.completed none
        1).update_status QueueStatus.queued none 2).status = QueueStatus.queued := by
  decide

/-- C4 (corrected): update_status validates nothing. For every item and every
target status, legal or not, it sets the status, overwrites the error message
with the given value, refreshes updated_at, leaves the other fields unchanged,
and never fails. -/
theorem C4_update_status_unconditional (item : QueueItem) (new_status : QueueStatus)
    (err : Option String) (now : Nat) :
    (item.update_status new_status err now).status = new_status ∧
    (item.update_status new_status err now).error_message = err ∧
    (item.update_status new_status err now).updated_at = now ∧
    (item.update_status new_status err now).id = item.id ∧
    (item.update_status new_status err now).file_path = item.file_path ∧
    (item.update_status new_status err now).created_at = item.created_at ∧
    (item.update_status new_status err now).pending_transcription =
      item.pending_transcription :=
  ⟨rfl, rfl, rfl, rfl, rfl, rfl, rfl⟩

/-- Ready SKIPPED item enqueued first in the FIFO counterexample. -/
def itemC9a : QueueItem :=
  { mkQueueItem "item-a" (some "/v/a.mp4") none none 0 with status := QueueStatus.skipped }

/-- Ready CONVERTED item enqueued second in the FIFO counterexample. -/
def itemC9b : QueueItem :=
  { mkQueueItem "item-b" (some "/v/b.mp4") none none 1 with status := QueueStatus.converted }

/-- Queue holding the two ready items of the FIFO counterexample, in insertion
order item-a then item-b. -/
def qmC9 : QueueManager :=
  { queue := [("item-a", itemC9a), ("item-b", itemC9b)],
    processing_order := ["item-a", "item-b"] }

/-- Idle single-worker orchestrator for the FIFO counterexample. -/
def oC9 : OrchState :=
  { max_workers := 1, model_pool := [], worker_threads := [] }

/-- C9 counterexample: dispatch order is not queue insertion order. item-a was
enqueued before item-b and both are ready, but the dispatch loop builds its
ready list as all CONVERTED items before all SKIPPED items, so with one free
slot it claims the later-enqueued item-b and leaves the earlier item-a
unclaimed. -/
theorem C9_fifo_counterexample :
    qmC9.get_all_items.map QueueItem.id = ["item-a", "item-b"] ∧
    itemC9a.status = QueueStatus.skipped ∧
    itemC9b.status = QueueStatus.converted ∧
    (orchReadyItems qmC9).map QueueItem.id = ["item-b", "item-a"] ∧
    (dispatchCycle oC9 qmC9).worker_threads.map WorkerTask.item_id = ["item-b"] := by
  decide

theorem fillSlots_claims_prefix (mw : Nat) (ready : List QueueItem) :
    ∀ (slots : Nat) (pool : List PoolEntry) (threads : List WorkerTask),
      ∃ k, (fillSlotsLoop mw slots ready pool threads).2.map WorkerTask.item_id =
        threads.map WorkerTask.item_id ++ (ready.take k).map QueueItem.id := by
  induction ready with
  | nil =>
    intro slots pool threads
    exact ⟨0, by cases slots <;> simp [fillSlotsLoop]⟩
  | cons item rest ih =>
    intro slots pool threads
    cases slots with
    | zero => exact ⟨0, by simp [fillSlotsLoop]⟩
    | succ s =>
      rcases hf : findFreeModelIdx pool with _ | idx
      · by_cases hl : pool.length < mw
        · obtain ⟨k, hk⟩ := ih s (pool ++ [PoolEntry.mk true])
            (threads ++ [WorkerTask.mk item.id pool.length])
          refine ⟨k + 1, ?_⟩
          simp only [fillSlotsLoop, hf, hl, if_pos, hk, List.map_append,
            List.take_succ_cons, List.map_cons]
          simp
        · refine ⟨0, ?_⟩
          simp [fillSlotsLoop, hf, hl]
      · obtain ⟨k, hk⟩ := ih s (pool.set idx (PoolEntry.mk true))
          (threads ++ [WorkerTask.mk item.id idx])
        refine ⟨k + 1, ?_⟩
        simp only [fillSlotsLoop, hf, hk, List.map_append, List.take_succ_cons,
          List.map_cons]
        simp

/-- C9 (corrected): dispatch order is FIFO only within each readiness class.
The ready list the dispatch loop works through is all CONVERTED items in queue
insertion order followed by all SKIPPED items in queue insertion order, and
each dispatch cycle claims a prefix of that list in that order; a CONVERTED
item is therefore always claimed before any SKIPPED item of the same cycle,
regardless of which was enqueued first. -/
theorem C9_fifo_per_class (qm : QueueManager) :
    orchReadyItems qm =
      qm.get_all_items.filter (fun item => item.status == QueueStatus.converted) ++
        qm.get_all_items.filter (fun item => item.status == QueueStatus.skipped) ∧
    ∀ (mw slots : Nat) (pool : List PoolEntry) (threads : List WorkerTask),
      ∃ k, (fillSlotsLoop mw slots (orchReadyItems qm) pool threads).2.map
          WorkerTask.item_id =
        threads.map WorkerTask.item_id ++ ((orchReadyItems qm).take k).map QueueItem.id := by
  constructor
  · rfl
  · intro mw slots pool threads
    exact fillSlots_claims_prefix mw (orchReadyItems qm) slots pool threads

/-- C10: the cancel/remove classification partitions the statuses exactly as
claimed. An item is cancellable exactly when QUEUED, DOWNLOADING, CONVERTING
or TRANSCRIBING, and removable exactly when COMPLETED, FAILED, CANCELLED or
SKIPPED; consequently bulk remove deletes a SKIPPED item outright (counted
removed) and neither cancels nor deletes a CONVERTED or PENDING_DUPLICATE item
(counted cannot_remove). -/
theorem C10_cancel_remove_partition (qm : QueueManager) (item_id : String)
    (item : QueueItem) (now : Nat) (h : qm.get_item item_id = some item) :
    (qm.can_cancel_item item_id = true ↔
        (item.status = QueueStatus.queued ∨ item.status = QueueStatus.downloading ∨
         item.status = QueueStatus.converting ∨ item.status = QueueStatus.transcribing)) ∧
    (qm.can_remove_item item_id = true ↔
        (item.status = QueueStatus.completed ∨ item.status = QueueStatus.failed ∨
         item.status = QueueStatus.cancelled ∨ item.status = QueueStatus.skipped)) ∧
    (item.status = QueueStatus.skipped →
        (qm.remove_items [item_id] now).2 = RemoveResult.mk 1 0 0 0) ∧
    (item.status = QueueStatus.converted →
        (qm.remove_items [item_id] now).2 = RemoveResult.mk 0 0 0 1) ∧
    (item.status = QueueStatus.pending_duplicate →
        (qm.remove_items [item_id] now).2 = RemoveResult.mk 0 0 0 1) := by
  refine ⟨?_, ?_, ?_, ?_, ?_⟩
  · cases hstatus : item.status <;>
      (simp only [QueueManager.can_cancel_item, h, hstatus]; decide)
  · cases hstatus : item.status <;>
      (simp only [QueueManager.can_remove_item, h, hstatus]; decide)
  · intro hstatus
    have hcc : qm.can_cancel_item item_id = false := by
      simp only [QueueManager.can_cancel_item, h, hstatus]; decide
    have hcr : qm.can_remove_item item_id = true := by
      simp only [QueueManager.can_remove_item, h, hstatus]; decide
    simp [QueueManager.remove_items, h, hcc, hcr]
  · intro hstatus
    have hcc : qm.can_cancel_item item_id = false := by
      simp only [QueueManager.can_cancel_item, h, hstatus]; decide
    have hcr : qm.can_remove_item item_id = false := by
      simp only [QueueManager.can_remove_item, h, hstatus]; decide
    simp [QueueManager.remove_items, h, hcc, hcr]
  · intro hstatus
    have hcc : qm.can_cancel_item item_id = false := by
      simp only [QueueManager.can_cancel_item, h, hstatus]; decide
    have hcr : qm.can_remove_item item_id = false := by
      simp only [QueueManager.can_remove_item, h, hstatus]; decide
    simp [QueueManager.remove_items, h, hcc, hcr]

/-- Concrete SKIPPED item for the classification witness. -/
def itemC10 : QueueItem :=
  { mkQueueItem "id-s" (some "/v/c.mp4") none none 0 with status := QueueStatus.skipped }

/-- Concrete one-item queue for the classification witness. -/
def qmC10 : QueueManager :=
  { queue := [("id-s", itemC10)], processing_order := ["id-s"] }

/-- C10 witness: the classification theorem evaluated on a SKIPPED item. -/
theorem C10_cancel_remove_partition_witness :
    (qmC10.can_cancel_item "id-s" = true ↔
        (itemC10.status = QueueStatus.queued ∨ itemC10.status = QueueStatus.downloading ∨
         itemC10.status = QueueStatus.converting ∨ itemC10.status = QueueStatus.transcribing)) ∧
    (qmC10.can_remove_item "id-s" = true ↔
        (itemC10.status = QueueStatus.completed ∨ itemC10.status = QueueStatus.failed ∨
         itemC10.status = QueueStatus.cancelled ∨ itemC10.status = QueueStatus.skipped)) ∧
    (itemC10.status = QueueStatus.skipped →
        (qmC10.remove_items ["id-s"] 3).2 = RemoveResult.mk 1 0 0 0) ∧
    (itemC10.status = QueueStatus.converted →
        (qmC10.remove_items ["id-s"] 3).2 = RemoveResult.mk 0 0 0 1) ∧
    (itemC10.status = QueueStatus.pending_duplicate →
        (qmC10.remove_items ["id-s"] 3).2 = RemoveResult.mk 0 0 0 1) :=
  C10_cancel_remove_partition qmC10 "id-s" itemC10 3 (by decide)

/-- C5: bulkRemove classifies each id and returns exact per-id outcome counts.
On a two-element list whose first id is QUEUED (cancellable) and second id is
COMPLETED (removable) it returns one cancelled and one removed with zero
not_found and cannot_remove, and a list holding one unknown id returns exactly
one not_found. -/
theorem C5_bulk_remove (qm : QueueManager) (now : Nat) (id1 id2 idu : String)
    (i1 i2 : QueueItem)
    (h1 : qm.get_item id1 = some i1) (hs1 : i1.status = QueueStatus.queued)
    (h2 : qm.get_item id2 = some i2) (hs2 : i2.status = QueueStatus.completed)
    (hne : id2 ≠ id1)
    (hu : qm.get_item idu = none) :
    (qm.remove_items [id1, id2] now).2 = RemoveResult.mk 1 1 0 0 ∧
    (qm.remove_items [idu] now).2 = RemoveResult.mk 0 0 1 0 := by
  have hcc1 : qm.can_cancel_item id1 = true := by
    simp only [QueueManager.can_cancel_item, h1, hs1]; decide
  have hg2 : (qm.set_item id1
      (i1.update_status QueueStatus.cancelled (some "cancelled by user") now)).get_item
        id2 = some i2 := by
    rw [QueueManager.get_item_set_ne qm id1 id2 _ hne]; exact h2
  have hcc2 : (qm.set_item id1
      (i1.update_status QueueStatus.cancelled (some "cancelled by user") now)).can_cancel_item
        id2 = false := by
    simp only [QueueManager.can_cancel_item, hg2, hs2]; decide
  have hcr2 : (qm.set_item id1
      (i1.update_status QueueStatus.cancelled (some "cancelled by user") now)).can_remove_item
        id2 = true := by
    simp only [QueueManager.can_remove_item, hg2, hs2]; decide
  constructor
  · simp [QueueManager.remove_items, h1, hcc1, hg2, hcc2, hcr2]
  · simp [QueueManager.remove_items, hu]

/-- Concrete QUEUED item for the bulk-remove witness. -/
def itemC5q : QueueItem := mkQueueItem "id-1" (some "/v/a.mp4") none none 0

/-- Concrete COMPLETED item for the bulk-remove witness. -/
def itemC5c : QueueItem :=
  { mkQueueItem "id-2" (some "/v/b.mp4") none none 0 with status := QueueStatus.completed }

/-- Concrete two-item queue for the bulk-remove witness. -/
def qmC5 : QueueManager :=
  { queue := [("id-1", itemC5q), ("id-2", itemC5c)], processing_order := ["id-1", "id-2"] }

/-- C5 witness: the bulk-remove theorem evaluated on the concrete scenario of
the spec (id-1 QUEUED, id-2 COMPLETED, plus one unknown id). -/
theorem C5_bulk_remove_witness :
    (qmC5.remove_items ["id-1", "id-2"] 7).2 = RemoveResult.mk 1 1 0 0 ∧
    (qmC5.remove_items ["ghost"] 7).2 = RemoveResult.mk 0 0 1 0 :=
  C5_bulk_remove qmC5 7 "id-1" "id-2" "ghost" itemC5q itemC5c (by decide) rfl
    (by decide) rfl (by decide) (by decide)

/-- Concrete PENDING_DUPLICATE item used to show the ready queries exclude a
parked job. -/
def itemC3 : QueueItem :=
  { mkQueueItem "id-pd" (some "/v/d.mp4") none none 0 with
      status := QueueStatus.pending_duplicate,
      pending_transcription := some (PendingTranscription.mk "d.txt" none none) }

/-- Concrete one-item queue holding the parked item. -/
def qmC3 : QueueManager :=
  { queue := [("id-pd", itemC3)], processing_order := ["id-pd"] }

/-- C3: the duplicate gate is defeated by a stale dispatch snapshot, so the
claimed property fails on the code. A PENDING_DUPLICATE job is indeed
excluded from both ready-for-transcription selections (first conjunct), yet
the interleaved semantics admits the following trace of a job whose converted
output name collides with a stored transcription: conversion finishes and
writes CONVERTED with the duplicate-gate write still pending; the dispatch
loop snapshots the job as ready and spawns a worker; the gate then writes
PENDING_DUPLICATE; and the already-spawned worker writes TRANSCRIBING over it
without any resolution. The final step moves the job from PENDING_DUPLICATE
straight to TRANSCRIBING, which no resolve step does (resolve exits go to
CANCELLED, CONVERTED or COMPLETED only), contradicting the claim and the
gate's own announced purpose of parking the job before transcription. -/
theorem C3_stale_worker_defeats_gate :
    (itemC3 ∉ qmC3.get_ready_items_for_transcription ∧ itemC3 ∉ orchReadyItems qmC3) ∧
    JobStep ⟨QueueStatus.converting, false, false, false⟩
      ⟨QueueStatus.converted, false, false, true⟩ ∧
    JobStep ⟨QueueStatus.converted, false, false, true⟩
      ⟨QueueStatus.converted, true, false, true⟩ ∧
    JobStep ⟨QueueStatus.converted, true, false, true⟩
      ⟨QueueStatus.pending_duplicate, true, false, false⟩ ∧
    JobStep ⟨QueueStatus.pending_duplicate, true, false, false⟩
      ⟨QueueStatus.transcribing, false, true, false⟩ := by
  refine ⟨by decide, ?_, ?_, ?_, ?_⟩
  · exact JobStep.convert_done true
  · exact JobStep.dispatch_claim QueueStatus.converted (Or.inl rfl) false true
  · exact JobStep.gate_fire QueueStatus.converted true false
  · exact JobStep.worker_begin QueueStatus.pending_duplicate false false

/-- C8: idle teardown. If every job is terminal or parked PENDING_DUPLICATE
(no active, non-duplicate-pending status is populated), no worker thread is
running, and the handle pool is non-empty, then one dispatch cycle empties the
whole pool: the pool size drops from positive to zero. -/
theorem C8_idle_teardown (o : OrchState) (qm : QueueManager)
    (hst : ∀ item ∈ qm.get_all_items,
        item.status = QueueStatus.completed ∨ item.status = QueueStatus.failed ∨
        item.status = QueueStatus.cancelled ∨ item.status = QueueStatus.pending_duplicate)
    (hw : o.worker_threads = [])
    (hp : o.model_pool ≠ []) :
    0 < o.model_pool.length ∧ (dispatchCycle o qm).model_pool = [] := by
  have hstatus_ne : ∀ st : QueueStatus, st ≠ QueueStatus.completed →
      st ≠ QueueStatus.failed → st ≠ QueueStatus.cancelled →
      st ≠ QueueStatus.pending_duplicate → qm.get_all_items_by_status st = [] := by
    intro st h1 h2 h3 h4
    unfold QueueManager.get_all_items_by_status
    rw [List.filter_eq_nil_iff]
    intro item hitem hbeq
    have his : item.status = st := by simpa using hbeq
    rcases hst item hitem with h | h | h | h
    · exact h1 (his.symm.trans h)
    · exact h2 (his.symm.trans h)
    · exact h3 (his.symm.trans h)
    · exact h4 (his.symm.trans h)
  have hq := hstatus_ne QueueStatus.queued (by decide) (by decide) (by decide) (by decide)
  have hd := hstatus_ne QueueStatus.downloading (by decide) (by decide) (by decide) (by decide)
  have hc := hstatus_ne QueueStatus.converting (by decide) (by decide) (by decide) (by decide)
  have ht := hstatus_ne QueueStatus.transcribing (by decide) (by decide) (by decide) (by decide)
  have hcv := hstatus_ne QueueStatus.converted (by decide) (by decide) (by decide) (by decide)
  have hsk := hstatus_ne QueueStatus.skipped (by decide) (by decide) (by decide) (by decide)
  have hready : orchReadyItems qm = [] := by
    unfold orchReadyItems
    rw [hcv, hsk]
    rfl
  refine ⟨List.length_pos.mpr hp, ?_⟩
  unfold dispatchCycle
  rw [hw, hready]
  simp [fillSlotsLoop_nil, activeStatuses, hq, hd, hc, ht, hp]

/-- Orchestrator with one idle pooled handle for the teardown witness. -/
def oC8 : OrchState :=
  { max_workers := 2, model_pool := [PoolEntry.mk false], worker_threads := [] }

/-- Concrete COMPLETED item for the teardown witness. -/
def itemC8done : QueueItem :=
  { mkQueueItem "id-d" (some "/v/e.mp4") none none 0 with status := QueueStatus.completed }

/-- Concrete PENDING_DUPLICATE item for the teardown witness. -/
def itemC8pd : QueueItem :=
  { mkQueueItem "id-p" (some "/v/f.mp4") none none 0 with
      status := QueueStatus.pending_duplicate }

/-- Queue with only a terminal and a duplicate-pending job for the teardown
witness. -/
def qmC8 : QueueManager :=
  { queue := [("id-d", itemC8done), ("id-p", itemC8pd)], processing_order := ["id-p"] }

/-- C8 witness: the teardown theorem evaluated on a one-handle pool with no
workers, one COMPLETED job and one PENDING_DUPLICATE job. -/
theorem C8_idle_teardown_witness :
    0 < oC8.model_pool.length ∧ (dispatchCycle oC8 qmC8).model_pool = [] :=
  C8_idle_teardown oC8 qmC8 (by decide) rfl (by decide)

/-- C6: the resolve-duplicate contract. With the item known, the checks run in
order: a non-PENDING_DUPLICATE item fails with notPendingDuplicate for either
action, a missing payload fails with noPendingPayload; cancel transitions the
item to CANCELLED and clears the payload; overwrite deletes the stored
transcription whose filename matches the proposed name, then either requeues
the item to CONVERTED (payload without produced content) or writes the cached
content to the result store and completes the item (payload with content),
clearing the payload in both cases. -/
theorem C6_resolve_contract (qm : QueueManager) (store : TranscriptionStore)
    (item_id : String) (item : QueueItem) (now new_id : Nat)
    (hget : qm.get_item item_id = some item) :
    (item.status ≠ QueueStatus.pending_duplicate →
      ∀ action, resolve_duplicate qm store item_id action new_id now =
        Except.error ResolveError.notPendingDuplicate) ∧
    (item.status = QueueStatus.pending_duplicate →
      item.pending_transcription = none →
      ∀ action, resolve_duplicate qm store item_id action new_id now =
        Except.error ResolveError.noPendingPayload) ∧
    (∀ p : PendingTranscription, item.status = QueueStatus.pending_duplicate →
      item.pending_transcription = some p →
      resolve_duplicate qm store item_id ResolveAction.cancel new_id now =
        Except.ok (qm.set_item item_id
          { item with status := QueueStatus.cancelled,
                      error_message := some "duplicate cancelled by user",
                      updated_at := now, pending_transcription := none }, store)) ∧
    (∀ (p : PendingTranscription) (t0 : Transcription),
      item.status = QueueStatus.pending_duplicate →
      item.pending_transcription = some p →
      store.filter (fun t => t.filename == p.filename) = [t0] →
      t0.id ≠ 0 →
      (contentMissing p.content = true →
        resolve_duplicate qm store item_id ResolveAction.overwrite new_id now =
          Except.ok (qm.set_item item_id
            { item with status := QueueStatus.converted, error_message := none,
                        updated_at := now, pending_transcription := none },
            delete_transcription store t0.id)) ∧
      (contentMissing p.content = false →
        resolve_duplicate qm store item_id ResolveAction.overwrite new_id now =
          Except.ok (qm.set_item item_id
            { item with status := QueueStatus.completed, error_message := none,
                        updated_at := now, pending_transcription := none },
            add_transcription (delete_transcription store t0.id) p.filename
              (p.content.getD "") item.id new_id))) := by
  refine ⟨?_, ?_, ?_, ?_⟩
  · intro ha action
    simp [resolve_duplicate, hget, ha]
  · intro hs hp action
    simp [resolve_duplicate, hget, hs, hp]
  · intro p hs hp
    simp [resolve_duplicate, hget, hs, hp, QueueItem.update_status]
  · intro p t0 hs hp hfilter hid
    have hperm : List.Perm ((get_all_transcriptions store).filter
        (fun t => t.filename == p.filename)) [t0] := by
      rw [← hfilter]
      exact (get_all_transcriptions_perm store).filter _
    have hsorted : (get_all_transcriptions store).filter
        (fun t => t.filename == p.filename) = [t0] := List.perm_singleton.mp hperm
    have hfind : (get_all_transcriptions store).find?
        (fun t => t.filename == p.filename) = some t0 :=
      find?_eq_of_filter_singleton _ hsorted
    constructor
    · intro hcm
      simp [resolve_duplicate, hget, hs, hp, hfind, hid, hcm, QueueItem.update_status]
    · intro hcm
      simp [resolve_duplicate, hget, hs, hp, hfind, hid, hcm, QueueItem.update_status]

/-- Pending payload (no cached content) for the resolve witness. -/
def pC6 : PendingTranscription := PendingTranscription.mk "clip.txt" none none

/-- Parked item whose proposed output name collides, for the resolve witness. -/
def itemC6 : QueueItem :=
  { mkQueueItem "id-pd6" (some "/v/clip.mp4") none none 0 with
      status := QueueStatus.pending_duplicate, pending_transcription := some pC6 }

/-- One-item queue for the resolve witness. -/
def qmC6 : QueueManager :=
  { queue := [("id-pd6", itemC6)], processing_order := ["id-pd6"] }

/-- Stored transcription colliding with the proposed name, for the resolve
witness. -/
def t0C6 : Transcription :=
  { id := 3, filename := "clip.txt", content := "old", queue_item_id := "q0" }

/-- Result store holding only the colliding entry, for the resolve witness. -/
def storeC6 : TranscriptionStore := [t0C6]

/-- C6 witness: overwrite resolution of a parked item whose payload has no
cached content deletes the colliding stored entry and requeues the item to
CONVERTED with its payload cleared. -/
theorem C6_resolve_contract_witness :
    resolve_duplicate qmC6 storeC6 "id-pd6" ResolveAction.overwrite 99 5 =
      Except.ok (qmC6.set_item "id-pd6"
        { itemC6 with status := QueueStatus.converted, error_message := none,
                      updated_at := 5, pending_transcription := none },
        delete_transcription storeC6 3) :=
  ((C6_resolve_contract qmC6 storeC6 "id-pd6" itemC6 5 99 (by decide)).2.2.2 pC6 t0C6
      rfl rfl (by decide) (by decide)).1 rfl

theorem fillSlots_preserves (mw : Nat) (ready : List QueueItem) :
    ∀ (slots : Nat) (pool : List PoolEntry) (threads : List WorkerTask),
      (threads.map WorkerTask.model_idx).Nodup →
      (∀ w ∈ threads, pool[w.model_idx]? = some (PoolEntry.mk true)) →
      busyCount pool = threads.length →
      pool.length ≤ mw →
      ((((fillSlotsLoop mw slots ready pool threads).2.map WorkerTask.model_idx).Nodup ∧
        (∀ w ∈ (fillSlotsLoop mw slots ready pool threads).2,
          (fillSlotsLoop mw slots ready pool threads).1[w.model_idx]? =
            some (PoolEntry.mk true)) ∧
        busyCount (fillSlotsLoop mw slots ready pool threads).1 =
          (fillSlotsLoop mw slots ready pool threads).2.length ∧
        (fillSlotsLoop mw slots ready pool threads).1.length ≤ mw) ∧
       (fillSlotsLoop mw slots ready pool threads).2.length ≤ threads.length + slots) := by
  induction ready with
  | nil =>
    intro slots pool threads h1 h2 h3 h4
    rw [fillSlotsLoop_nil]
    exact ⟨⟨h1, h2, h3, h4⟩, Nat.le_add_right _ _⟩
  | cons item rest ih =>
    intro slots pool threads h1 h2 h3 h4
    cases slots with
    | zero =>
      exact ⟨⟨h1, h2, h3, h4⟩, Nat.le_add_right _ _⟩
    | succ s =>
      rcases hf : findFreeModelIdx pool with _ | idx
      · by_cases hl : pool.length < mw
        · have hstep : fillSlotsLoop mw (s + 1) (item :: rest) pool threads =
              fillSlotsLoop mw s rest (pool ++ [PoolEntry.mk true])
                (threads ++ [WorkerTask.mk item.id pool.length]) := by
            simp [fillSlotsLoop, hf, hl]
          have hmem_lt : ∀ w ∈ threads, w.model_idx < pool.length := by
            intro w hw
            rcases List.getElem?_eq_some.mp (h2 w hw) with ⟨hlt, -⟩
            exact hlt
          have h1' : ((threads ++ [WorkerTask.mk item.id pool.length]).map
              WorkerTask.model_idx).Nodup := by
            rw [List.map_append, List.nodup_append]
            refine ⟨h1, List.nodup_singleton _, ?_⟩
            intro a ha hb
            rcases List.mem_map.mp ha with ⟨w, hw, rfl⟩
            have heq : w.model_idx = pool.length := by simpa using hb
            exact absurd (heq ▸ hmem_lt w hw) (lt_irrefl _)
          have h2' : ∀ w ∈ threads ++ [WorkerTask.mk item.id pool.length],
              (pool ++ [PoolEntry.mk true])[w.model_idx]? = some (PoolEntry.mk true) := by
            intro w hw
            rcases List.mem_append.mp hw with hw | hw
            · rw [List.getElem?_append_left (hmem_lt w hw)]
              exact h2 w hw
            · have : w = WorkerTask.mk item.id pool.length := by simpa using hw
              subst this
              exact List.getElem?_concat_length _ _
          have h3' : busyCount (pool ++ [PoolEntry.mk true]) =
              (threads ++ [WorkerTask.mk item.id pool.length]).length := by
            rw [busyCount_append, h3]
            simp [busyCount]
          have h4' : (pool ++ [PoolEntry.mk true]).length ≤ mw := by
            simpa using Nat.succ_le_of_lt hl
          have hrec := ih s (pool ++ [PoolEntry.mk true])
            (threads ++ [WorkerTask.mk item.id pool.length]) h1' h2' h3' h4'
          rw [hstep]
          refine ⟨hrec.1, ?_⟩
          have := hrec.2
          simp only [List.length_append, List.length_singleton] at this
          omega
        · have hstep : fillSlotsLoop mw (s + 1) (item :: rest) pool threads =
              (pool, threads) := by
            simp [fillSlotsLoop, hf, hl]
          rw [hstep]
          exact ⟨⟨h1, h2, h3, h4⟩, Nat.le_add_right _ _⟩
      · have hfree := findFreeModelIdx_spec pool idx hf
        have hidx_lt : idx < pool.length := by
          rcases List.getElem?_eq_some.mp hfree with ⟨hlt, -⟩
          exact hlt
        have hstep : fillSlotsLoop mw (s + 1) (item :: rest) pool threads =
            fillSlotsLoop mw s rest (pool.set idx (PoolEntry.mk true))
              (threads ++ [WorkerTask.mk item.id idx]) := by
          simp [fillSlotsLoop, hf]
        have hmem_ne : ∀ w ∈ threads, w.model_idx ≠ idx := by
          intro w hw heq
          have hbusy := h2 w hw
          rw [heq, hfree] at hbusy
          simp at hbusy
        have h1' : ((threads ++ [WorkerTask.mk item.id idx]).map
            WorkerTask.model_idx).Nodup := by
          rw [List.map_append, List.nodup_append]
          refine ⟨h1, List.nodup_singleton _, ?_⟩
          intro a ha hb
          rcases List.mem_map.mp ha with ⟨w, hw, rfl⟩
          have heq : w.model_idx = idx := by simpa using hb
          exact hmem_ne w hw heq
        have h2' : ∀ w ∈ threads ++ [WorkerTask.mk item.id idx],
            (pool.set idx (PoolEntry.mk true))[w.model_idx]? =
              some (PoolEntry.mk true) := by
          intro w hw
          rcases List.mem_append.mp hw with hw | hw
          · rw [List.getElem?_set_ne (Ne.symm (hmem_ne w hw))]
            exact h2 w hw
          · have : w = WorkerTask.mk item.id idx := by simpa using hw
            subst this
            exact List.getElem?_set_eq_of_lt _ hidx_lt
        have h3' : busyCount (pool.set idx (PoolEntry.mk true)) =
            (threads ++ [WorkerTask.mk item.id idx]).length := by
          rw [busyCount_set_true hfree, h3]
          simp
        have h4' : (pool.set idx (PoolEntry.mk true)).length ≤ mw := by
          simpa using h4
        have hrec := ih s (pool.set idx (PoolEntry.mk true))
          (threads ++ [WorkerTask.mk item.id idx]) h1' h2' h3' h4'
        rw [hstep]
        refine ⟨hrec.1, ?_⟩
        have := hrec.2
        simp only [List.length_append, List.length_singleton] at this
        omega

theorem workerFinish_preserves (o : OrchState) (w : WorkerTask)
    (hw : w ∈ o.worker_threads) (hinv : PoolInv o) : PoolInv (workerFinish o w) := by
  obtain ⟨h1, h2, h3, h4⟩ := hinv
  have hthreads_nodup : o.worker_threads.Nodup := List.Nodup.of_map _ h1
  unfold PoolInv workerFinish
  refine ⟨?_, ?_, ?_, ?_⟩
  · exact h1.sublist ((List.erase_sublist w o.worker_threads).map WorkerTask.model_idx)
  · intro v hv
    have hv_mem : v ∈ o.worker_threads := List.mem_of_mem_erase hv
    have hv_ne : v ≠ w := (hthreads_nodup.mem_erase_iff.mp hv).1
    have hidx_ne : v.model_idx ≠ w.model_idx := by
      intro heq
      exact hv_ne (List.inj_on_of_nodup_map h1 hv_mem hw heq)
    rw [List.getElem?_set_ne (Ne.symm hidx_ne)]
    exact h2 v hv_mem
  · have hbusy := busyCount_set_false (h2 w hw)
    have hlen := List.length_erase_of_mem hw
    have hpos : 0 < o.worker_threads.length := List.length_pos_of_mem hw
    show busyCount (o.model_pool.set w.model_idx (PoolEntry.mk false)) =
      (o.worker_threads.erase w).length
    omega
  · simpa using h4

/-- The filled pool and thread list one dispatch cycle computes before idle
maintenance (the if at core.py line 89 around the while loop). -/
def dispatchFilled (o : OrchState) (qm : QueueManager) :
    List PoolEntry × List WorkerTask :=
  if o.max_workers - o.worker_threads.length > 0 then
    fillSlotsLoop o.max_workers (o.max_workers - o.worker_threads.length)
      (orchReadyItems qm) o.model_pool o.worker_threads
  else (o.model_pool, o.worker_threads)

theorem dispatchCycle_eq (o : OrchState) (qm : QueueManager) :
    dispatchCycle o qm =
      if !((activeStatuses.any fun s => !(qm.get_all_items_by_status s).isEmpty) ||
          !(dispatchFilled o qm).2.isEmpty) && !(dispatchFilled o qm).1.isEmpty then
        { o with model_pool := [], worker_threads := (dispatchFilled o qm).2 }
      else { o with model_pool := (dispatchFilled o qm).1,
                    worker_threads := (dispatchFilled o qm).2 } := rfl

/-- C2: pool bookkeeping. Assuming the pool invariant, one dispatch cycle
preserves it, so afterwards the number of busy handles equals the number of
running worker threads and the pool never exceeds max_workers; the cycle
starts at most max_workers minus the running-thread count new workers; and a
worker finishing (freeing its handle and leaving the bookkeeping list) also
preserves the invariant and the busy-equals-running equality. -/
theorem C2_pool_bookkeeping (o : OrchState) (qm : QueueManager) (hinv : PoolInv o) :
    PoolInv (dispatchCycle o qm) ∧
    busyCount (dispatchCycle o qm).model_pool =
      (dispatchCycle o qm).worker_threads.length ∧
    (dispatchCycle o qm).model_pool.length ≤ o.max_workers ∧
    (dispatchCycle o qm).worker_threads.length ≤
      o.worker_threads.length + (o.max_workers - o.worker_threads.length) ∧
    (∀ w ∈ o.worker_threads, PoolInv (workerFinish o w) ∧
      busyCount (workerFinish o w).model_pool =
        (workerFinish o w).worker_threads.length) := by
  have hfin : ∀ w ∈ o.worker_threads, PoolInv (workerFinish o w) ∧
      busyCount (workerFinish o w).model_pool =
        (workerFinish o w).worker_threads.length := by
    intro w hw
    have hp := workerFinish_preserves o w hw hinv
    exact ⟨hp, hp.2.2.1⟩
  obtain ⟨h1, h2, h3, h4⟩ := hinv
  have hfill : (((dispatchFilled o qm).2.map WorkerTask.model_idx).Nodup ∧
      (∀ w ∈ (dispatchFilled o qm).2,
        (dispatchFilled o qm).1[w.model_idx]? = some (PoolEntry.mk true)) ∧
      busyCount (dispatchFilled o qm).1 = (dispatchFilled o qm).2.length ∧
      (dispatchFilled o qm).1.length ≤ o.max_workers) ∧
      (dispatchFilled o qm).2.length ≤
        o.worker_threads.length + (o.max_workers - o.worker_threads.length) := by
    unfold dispatchFilled
    by_cases hs : o.max_workers - o.worker_threads.length > 0
    · rw [if_pos hs]
      exact fillSlots_preserves o.max_workers (orchReadyItems qm) _ o.model_pool
        o.worker_threads h1 h2 h3 h4
    · rw [if_neg hs]
      exact ⟨⟨h1, h2, h3, h4⟩, Nat.le_add_right _ _⟩
  obtain ⟨⟨f1, f2, f3, f4⟩, f5⟩ := hfill
  rw [dispatchCycle_eq]
  by_cases hcond : (!((activeStatuses.any fun s =>
      !(qm.get_all_items_by_status s).isEmpty) ||
      !(dispatchFilled o qm).2.isEmpty) && !(dispatchFilled o qm).1.isEmpty) = true
  · rw [if_pos hcond]
    have hnoact := (Bool.and_eq_true _ _).mp hcond
    have hor : ((activeStatuses.any fun s => !(qm.get_all_items_by_status s).isEmpty) ||
        !(dispatchFilled o qm).2.isEmpty) = false := by
      have := hnoact.1
      simp only [Bool.not_eq_true'] at this
      exact this
    have hb : (!(dispatchFilled o qm).2.isEmpty) = false :=
      (Bool.or_eq_false_iff.mp hor).2
    have hempty : (dispatchFilled o qm).2 = [] := by
      have hie : (dispatchFilled o qm).2.isEmpty = true := by simpa using hb
      exact List.isEmpty_iff.mp hie
    refine ⟨?_, ?_, ?_, ?_, hfin⟩
    · unfold PoolInv
      simp [hempty, busyCount]
    · simp [hempty, busyCount]
    · simp
    · simp [hempty]
  · rw [if_neg (by simpa using hcond)]
    refine ⟨?_, ?_, ?_, ?_, hfin⟩
    · exact ⟨f1, f2, f3, f4⟩
    · exact f3
    · exact f4
    · exact f5

/-- Busy single-handle orchestrator used in the pool-bookkeeping witness. -/
def oC2 : OrchState :=
  { max_workers := 2, model_pool := [PoolEntry.mk true],
    worker_threads := [WorkerTask.mk "w1" 0] }

/-- Concrete CONVERTED item for the pool-bookkeeping witness. -/
def itemC2 : QueueItem :=
  { mkQueueItem "id-c2" (some "/v/g.mp4") none none 0 with
      status := QueueStatus.converted }

/-- One-item ready queue for the pool-bookkeeping witness. -/
def qmC2 : QueueManager :=
  { queue := [("id-c2", itemC2)], processing_order := ["id-c2"] }

/-- C2 witness: the bookkeeping theorem evaluated on a one-busy-handle pool
with one running worker and one ready item. -/
theorem C2_pool_bookkeeping_witness :
    PoolInv (dispatchCycle oC2 qmC2) ∧
    busyCount (dispatchCycle oC2 qmC2).model_pool =
      (dispatchCycle oC2 qmC2).worker_threads.length ∧
    (dispatchCycle oC2 qmC2).model_pool.length ≤ oC2.max_workers ∧
    (dispatchCycle oC2 qmC2).worker_threads.length ≤
      oC2.worker_threads.length + (oC2.max_workers - oC2.worker_threads.length) ∧
    (∀ w ∈ oC2.worker_threads, PoolInv (workerFinish oC2 w) ∧
      busyCount (workerFinish oC2 w).model_pool =
        (workerFinish oC2 w).worker_threads.length) :=
  C2_pool_bookkeeping oC2 qmC2 (by unfold PoolInv; decide)
